import Mathlib

/-!
Shallow embedding of the trip simulation engine of
`android/src/main/java/com/google/android/react/navsdk/JourneySharingModule.java`
(the `SimulatedTrip` class and the control operations around it).

Modelling conventions:
* Java `double` values are modelled exactly: coordinates and headings as real
  numbers (they feed `Math.sqrt` / `Math.atan2`), `remainingDistanceMeters` as a
  rational (its arithmetic is rational), `long` millisecond timestamps as
  integers; the `(long)` cast of a nonnegative double is `Int.floor`.
* All calls to `System.currentTimeMillis()` within one invocation of
  `updateVehicleLocation` are modelled as a single instant `now`, passed as an
  argument.
* The randomly generated `TripWaypoint.id` (a UUID) is not modelled: no
  simulation step reads it.
-/

namespace JourneySharing

/-- Model of `LatLng` (JourneySharingModule.java, lines 63-71). -/
structure LatLng where
  lat : ℝ
  lng : ℝ

/-- Model of `TripWaypoint` (lines 73-87); `waypointType`: 0 = pickup, 1 = dropoff,
2 = intermediate. The `tripId` is a Java `String` reference that can be null
(it defaults to the parent trip name, which itself can be null), hence
`Option String`. -/
structure TripWaypoint where
  location : LatLng
  waypointType : ℤ
  tripId : Option String
  title : String

/-- Model of `TripData` (lines 89-104); `tripStatus`: 0 = NEW, 1 = ENROUTE_TO_PICKUP,
2 = ARRIVED_AT_PICKUP, 3 = ENROUTE_TO_DROPOFF, 4 = COMPLETED, 5 = CANCELED.
`tripName` and `bookingId` are Java `String` references that can be null
(`getString` on a missing key returns null), hence `Option String`. -/
structure TripData where
  tripName : Option String
  tripStatus : ℤ
  remainingWaypoints : List TripWaypoint
  vehicleTypeId : String
  bookingId : Option String

/-- Model of `VehicleLocation` (lines 106-116). -/
structure VehicleLocation where
  location : LatLng
  heading : ℝ
  timestamp : ℤ

/-- The mutable state of `SimulatedTrip` (lines 118-124). -/
structure SimulatedTrip where
  tripData : TripData
  vehicleLocation : VehicleLocation
  currentStatus : ℤ
  currentWaypointIndex : ℕ
  etaTimestampMillis : ℤ
  remainingDistanceMeters : ℚ

/-- Line 147: `remainingDistanceMeters = Math.max(0, remainingDistanceMeters - 50)`. -/
def decayedDistance (d : ℚ) : ℚ := max 0 (d - 50)

/-- Lines 150-152: clamp the remaining time-to-ETA to at least 60 000 ms, then
set the ETA to `now` plus 95% of that remaining time (the `(long)` cast of the
nonnegative double product is a floor). -/
def decayedEta (now etaTimestampMillis : ℤ) : ℤ :=
  let remainingTime : ℤ := max 60000 (etaTimestampMillis - now)
  now + ⌊(remainingTime : ℚ) * 0.95⌋

/-- Lines 163-165: linear interpolation 5% of the way toward the target. -/
noncomputable def newPosition (currentLoc targetLoc : LatLng) : LatLng :=
  let moveFactor : ℝ := 0.05
  ⟨currentLoc.lat + (targetLoc.lat - currentLoc.lat) * moveFactor,
   currentLoc.lng + (targetLoc.lng - currentLoc.lng) * moveFactor⟩

/-- Model of `Math.atan2 y x`: the angle of the point `(x, y)`, in `(-pi, pi]`, with
`atan2 0 0 = 0`; this is exactly `Complex.arg` of `x + y*I`. -/
noncomputable def atan2 (y x : ℝ) : ℝ := Complex.arg ⟨x, y⟩

/-- Lines 168-169: bearing toward the target in degrees, with 360 added when
negative. -/
noncomputable def computeHeading (currentLoc targetLoc : LatLng) : ℝ :=
  let heading :=
    atan2 (targetLoc.lng - currentLoc.lng) (targetLoc.lat - currentLoc.lat) * 180 / Real.pi
  if heading < 0 then heading + 360 else heading

/-- Lines 176-180: Euclidean distance in coordinate-degree space between the
new position and the target is below 0.0002. -/
noncomputable def arrived (newLoc targetLoc : LatLng) : Prop :=
  Real.sqrt ((newLoc.lat - targetLoc.lat) ^ 2 + (newLoc.lng - targetLoc.lng) ^ 2) < 0.0002

open Classical in
/-- Model of `SimulatedTrip.updateVehicleLocation` (lines 141-215): one tick of the
simulation at instant `now`. -/
noncomputable def updateVehicleLocation (now : ℤ) (s : SimulatedTrip) : SimulatedTrip :=
  if s.currentStatus = 4 ∨ s.currentStatus = 5 then s
  else
    let rem := decayedDistance s.remainingDistanceMeters
    let eta := decayedEta now s.etaTimestampMillis
    if hidx : s.currentWaypointIndex < s.tripData.remainingWaypoints.length then
      let targetWaypoint := s.tripData.remainingWaypoints.get ⟨s.currentWaypointIndex, hidx⟩
      let newLoc := newPosition s.vehicleLocation.location targetWaypoint.location
      let veh : VehicleLocation :=
        ⟨newLoc, computeHeading s.vehicleLocation.location targetWaypoint.location, now⟩
      if arrived newLoc targetWaypoint.location then
        if targetWaypoint.waypointType = 0 then
          -- lines 182-195: PICKUP
          if rem < 100 then
            if s.currentWaypointIndex + 1 < s.tripData.remainingWaypoints.length then
              { s with
                tripData := { s.tripData with tripStatus := 3 }
                vehicleLocation := veh
                currentStatus := 3
                currentWaypointIndex := s.currentWaypointIndex + 1
                etaTimestampMillis := now + 20 * 60 * 1000
                remainingDistanceMeters := 3000 }
            else
              { s with
                tripData := { s.tripData with tripStatus := 3 }
                vehicleLocation := veh
                currentStatus := 3
                currentWaypointIndex := s.currentWaypointIndex + 1
                etaTimestampMillis := eta
                remainingDistanceMeters := rem }
          else
            { s with
              tripData := { s.tripData with tripStatus := 2 }
              vehicleLocation := veh
              currentStatus := 2
              etaTimestampMillis := eta
              remainingDistanceMeters := rem }
        else if targetWaypoint.waypointType = 1 then
          -- lines 196-199: DROPOFF
          { s with
            tripData := { s.tripData with tripStatus := 4 }
            vehicleLocation := veh
            currentStatus := 4
            etaTimestampMillis := eta
            remainingDistanceMeters := 0 }
        else
          -- lines 200-209: INTERMEDIATE
          if s.currentWaypointIndex + 1 < s.tripData.remainingWaypoints.length then
            { s with
              tripData := { s.tripData with tripStatus := s.currentStatus }
              vehicleLocation := veh
              currentWaypointIndex := s.currentWaypointIndex + 1
              etaTimestampMillis := now + 10 * 60 * 1000
              remainingDistanceMeters := 2000 }
          else
            { s with
              tripData := { s.tripData with tripStatus := s.currentStatus }
              vehicleLocation := veh
              currentWaypointIndex := s.currentWaypointIndex + 1
              etaTimestampMillis := eta
              remainingDistanceMeters := rem }
      else
        { s with
          tripData := { s.tripData with tripStatus := s.currentStatus }
          vehicleLocation := veh
          etaTimestampMillis := eta
          remainingDistanceMeters := rem }
    else
      { s with
        tripData := { s.tripData with tripStatus := s.currentStatus }
        etaTimestampMillis := eta
        remainingDistanceMeters := rem }

/-- A run of the scheduler: the ticks at the successive instants in `ts`
(lines 379-402 call `updateVehicleLocation` once per loop iteration). -/
noncomputable def run (ts : List ℤ) (s : SimulatedTrip) : SimulatedTrip :=
  ts.foldl (fun t c => updateVehicleLocation c t) s

/-! ### Elementary facts about the decay steps and the arrival test -/

theorem decayedDistance_nonneg (d : ℚ) : 0 ≤ decayedDistance d := le_max_left 0 (d - 50)

theorem decayedDistance_le (d : ℚ) (h : 0 ≤ d) : decayedDistance d ≤ d := by
  unfold decayedDistance
  rcases le_or_lt d 50 with h50 | h50
  · simpa [max_eq_left, sub_nonpos.mpr h50] using h
  · have : d - 50 ≤ d := by linarith
    exact max_le h this

theorem decayedEta_remaining_lower (now eta : ℤ) : 57000 ≤ decayedEta now eta - now := by
  have hmax : (60000 : ℤ) ≤ max 60000 (eta - now) := le_max_left _ _
  have hcast : ((60000 : ℤ) : ℚ) ≤ ((max 60000 (eta - now) : ℤ) : ℚ) := by exact_mod_cast hmax
  have h95 : (0.95 : ℚ) = 19 / 20 := by norm_num
  have hq : (57000 : ℚ) ≤ ((max 60000 (eta - now) : ℤ) : ℚ) * 0.95 := by
    rw [h95]
    push_cast at hcast ⊢
    linarith
  have hfl : (57000 : ℤ) ≤ ⌊((max 60000 (eta - now) : ℤ) : ℚ) * 0.95⌋ := by
    rw [Int.le_floor]
    exact_mod_cast hq
  simp only [decayedEta]
  omega

theorem decayedEta_remaining_upper (now eta : ℤ) :
    decayedEta now eta - now ≤ max 60000 (eta - now) := by
  have hmax : (0 : ℤ) ≤ max 60000 (eta - now) := le_trans (by norm_num) (le_max_left _ _)
  have hcast : (0 : ℚ) ≤ ((max 60000 (eta - now) : ℤ) : ℚ) := by exact_mod_cast hmax
  have h95 : (0.95 : ℚ) = 19 / 20 := by norm_num
  have h1 : ((max 60000 (eta - now) : ℤ) : ℚ) * 0.95 ≤ ((max 60000 (eta - now) : ℤ) : ℚ) := by
    rw [h95]
    linarith
  have hfl : ⌊((max 60000 (eta - now) : ℤ) : ℚ) * 0.95⌋ ≤ max 60000 (eta - now) := by
    have h2 := (Int.floor_le (((max 60000 (eta - now) : ℤ) : ℚ) * 0.95)).trans h1
    exact_mod_cast h2
  simp only [decayedEta]
  omega

theorem newPosition_self (p : LatLng) : newPosition p p = p := by
  unfold newPosition
  cases p with
  | mk lat lng => simp

theorem arrived_self (p : LatLng) : arrived p p := by
  unfold arrived
  simp only [sub_self]
  norm_num

theorem arrived_iff (newLoc targetLoc : LatLng) :
    arrived newLoc targetLoc ↔
      (newLoc.lat - targetLoc.lat) ^ 2 + (newLoc.lng - targetLoc.lng) ^ 2 < 0.0002 ^ 2 := by
  unfold arrived
  exact Real.sqrt_lt' (by norm_num)

/-! ### Evaluation lemmas: one per branch of `updateVehicleLocation` -/

theorem tick_terminal (now : ℤ) (s : SimulatedTrip)
    (hterm : s.currentStatus = 4 ∨ s.currentStatus = 5) :
    updateVehicleLocation now s = s := by
  unfold updateVehicleLocation
  rw [if_pos hterm]

theorem tick_noWaypoint (now : ℤ) (s : SimulatedTrip)
    (hterm : ¬(s.currentStatus = 4 ∨ s.currentStatus = 5))
    (hidx : ¬ s.currentWaypointIndex < s.tripData.remainingWaypoints.length) :
    updateVehicleLocation now s =
      { s with
        tripData := { s.tripData with tripStatus := s.currentStatus }
        etaTimestampMillis := decayedEta now s.etaTimestampMillis
        remainingDistanceMeters := decayedDistance s.remainingDistanceMeters } := by
  unfold updateVehicleLocation
  rw [if_neg hterm, dif_neg hidx]

theorem tick_noArrival (now : ℤ) (s : SimulatedTrip)
    (hterm : ¬(s.currentStatus = 4 ∨ s.currentStatus = 5))
    (hidx : s.currentWaypointIndex < s.tripData.remainingWaypoints.length)
    (harr : ¬ arrived
      (newPosition s.vehicleLocation.location
        (s.tripData.remainingWaypoints.get ⟨s.currentWaypointIndex, hidx⟩).location)
      (s.tripData.remainingWaypoints.get ⟨s.currentWaypointIndex, hidx⟩).location) :
    updateVehicleLocation now s =
      { s with
        tripData := { s.tripData with tripStatus := s.currentStatus }
        vehicleLocation :=
          ⟨newPosition s.vehicleLocation.location
            (s.tripData.remainingWaypoints.get ⟨s.currentWaypointIndex, hidx⟩).location,
           computeHeading s.vehicleLocation.location
            (s.tripData.remainingWaypoints.get ⟨s.currentWaypointIndex, hidx⟩).location, now⟩
        etaTimestampMillis := decayedEta now s.etaTimestampMillis
        remainingDistanceMeters := decayedDistance s.remainingDistanceMeters } := by
  unfold updateVehicleLocation
  rw [if_neg hterm, dif_pos hidx, if_neg harr]

theorem tick_pickup_reset (now : ℤ) (s : SimulatedTrip)
    (hterm : ¬(s.currentStatus = 4 ∨ s.currentStatus = 5))
    (hidx : s.currentWaypointIndex < s.tripData.remainingWaypoints.length)
    (harr : arrived
      (newPosition s.vehicleLocation.location
        (s.tripData.remainingWaypoints.get ⟨s.currentWaypointIndex, hidx⟩).location)
      (s.tripData.remainingWaypoints.get ⟨s.currentWaypointIndex, hidx⟩).location)
    (htype : (s.tripData.remainingWaypoints.get ⟨s.currentWaypointIndex, hidx⟩).waypointType = 0)
    (hrem : decayedDistance s.remainingDistanceMeters < 100)
    (hnext : s.currentWaypointIndex + 1 < s.tripData.remainingWaypoints.length) :
    updateVehicleLocation now s =
      { s with
        tripData := { s.tripData with tripStatus := 3 }
        vehicleLocation :=
          ⟨newPosition s.vehicleLocation.location
            (s.tripData.remainingWaypoints.get ⟨s.currentWaypointIndex, hidx⟩).location,
           computeHeading s.vehicleLocation.location
            (s.tripData.remainingWaypoints.get ⟨s.currentWaypointIndex, hidx⟩).location, now⟩
        currentStatus := 3
        currentWaypointIndex := s.currentWaypointIndex + 1
        etaTimestampMillis := now + 20 * 60 * 1000
        remainingDistanceMeters := 3000 } := by
  unfold updateVehicleLocation
  rw [if_neg hterm, dif_pos hidx, if_pos harr, if_pos htype, if_pos hrem, if_pos hnext]

theorem tick_pickup_noNext (now : ℤ) (s : SimulatedTrip)
    (hterm : ¬(s.currentStatus = 4 ∨ s.currentStatus = 5))
    (hidx : s.currentWaypointIndex < s.tripData.remainingWaypoints.length)
    (harr : arrived
      (newPosition s.vehicleLocation.location
        (s.tripData.remainingWaypoints.get ⟨s.currentWaypointIndex, hidx⟩).location)
      (s.tripData.remainingWaypoints.get ⟨s.currentWaypointIndex, hidx⟩).location)
    (htype : (s.tripData.remainingWaypoints.get ⟨s.currentWaypointIndex, hidx⟩).waypointType = 0)
    (hrem : decayedDistance s.remainingDistanceMeters < 100)
    (hnext : ¬ s.currentWaypointIndex + 1 < s.tripData.remainingWaypoints.length) :
    updateVehicleLocation now s =
      { s with
        tripData := { s.tripData with tripStatus := 3 }
        vehicleLocation :=
          ⟨newPosition s.vehicleLocation.location
            (s.tripData.remainingWaypoints.get ⟨s.currentWaypointIndex, hidx⟩).location,
           computeHeading s.vehicleLocation.location
            (s.tripData.remainingWaypoints.get ⟨s.currentWaypointIndex, hidx⟩).location, now⟩
        currentStatus := 3
        currentWaypointIndex := s.currentWaypointIndex + 1
        etaTimestampMillis := decayedEta now s.etaTimestampMillis
        remainingDistanceMeters := decayedDistance s.remainingDistanceMeters } := by
  unfold updateVehicleLocation
  rw [if_neg hterm, dif_pos hidx, if_pos harr, if_pos htype, if_pos hrem, if_neg hnext]

theorem tick_pickup_far (now : ℤ) (s : SimulatedTrip)
    (hterm : ¬(s.currentStatus = 4 ∨ s.currentStatus = 5))
    (hidx : s.currentWaypointIndex < s.tripData.remainingWaypoints.length)
    (harr : arrived
      (newPosition s.vehicleLocation.location
        (s.tripData.remainingWaypoints.get ⟨s.currentWaypointIndex, hidx⟩).location)
      (s.tripData.remainingWaypoints.get ⟨s.currentWaypointIndex, hidx⟩).location)
    (htype : (s.tripData.remainingWaypoints.get ⟨s.currentWaypointIndex, hidx⟩).waypointType = 0)
    (hrem : ¬ decayedDistance s.remainingDistanceMeters < 100) :
    updateVehicleLocation now s =
      { s with
        tripData := { s.tripData with tripStatus := 2 }
        vehicleLocation :=
          ⟨newPosition s.vehicleLocation.location
            (s.tripData.remainingWaypoints.get ⟨s.currentWaypointIndex, hidx⟩).location,
           computeHeading s.vehicleLocation.location
            (s.tripData.remainingWaypoints.get ⟨s.currentWaypointIndex, hidx⟩).location, now⟩
        currentStatus := 2
        etaTimestampMillis := decayedEta now s.etaTimestampMillis
        remainingDistanceMeters := decayedDistance s.remainingDistanceMeters } := by
  unfold updateVehicleLocation
  rw [if_neg hterm, dif_pos hidx, if_pos harr, if_pos htype, if_neg hrem]

theorem tick_dropoff (now : ℤ) (s : SimulatedTrip)
    (hterm : ¬(s.currentStatus = 4 ∨ s.currentStatus = 5))
    (hidx : s.currentWaypointIndex < s.tripData.remainingWaypoints.length)
    (harr : arrived
      (newPosition s.vehicleLocation.location
        (s.tripData.remainingWaypoints.get ⟨s.currentWaypointIndex, hidx⟩).location)
      (s.tripData.remainingWaypoints.get ⟨s.currentWaypointIndex, hidx⟩).location)
    (htype : (s.tripData.remainingWaypoints.get ⟨s.currentWaypointIndex, hidx⟩).waypointType = 1) :
    updateVehicleLocation now s =
      { s with
        tripData := { s.tripData with tripStatus := 4 }
        vehicleLocation :=
          ⟨newPosition s.vehicleLocation.location
            (s.tripData.remainingWaypoints.get ⟨s.currentWaypointIndex, hidx⟩).location,
           computeHeading s.vehicleLocation.location
            (s.tripData.remainingWaypoints.get ⟨s.currentWaypointIndex, hidx⟩).location, now⟩
        currentStatus := 4
        etaTimestampMillis := decayedEta now s.etaTimestampMillis
        remainingDistanceMeters := 0 } := by
  have htype0 : ¬ (s.tripData.remainingWaypoints.get
      ⟨s.currentWaypointIndex, hidx⟩).waypointType = 0 := by
    rw [htype]
    norm_num
  unfold updateVehicleLocation
  rw [if_neg hterm, dif_pos hidx, if_pos harr, if_neg htype0, if_pos htype]

theorem tick_intermediate_reset (now : ℤ) (s : SimulatedTrip)
    (hterm : ¬(s.currentStatus = 4 ∨ s.currentStatus = 5))
    (hidx : s.currentWaypointIndex < s.tripData.remainingWaypoints.length)
    (harr : arrived
      (newPosition s.vehicleLocation.location
        (s.tripData.remainingWaypoints.get ⟨s.currentWaypointIndex, hidx⟩).location)
      (s.tripData.remainingWaypoints.get ⟨s.currentWaypointIndex, hidx⟩).location)
    (htype0 : ¬ (s.tripData.remainingWaypoints.get
      ⟨s.currentWaypointIndex, hidx⟩).waypointType = 0)
    (htype1 : ¬ (s.tripData.remainingWaypoints.get
      ⟨s.currentWaypointIndex, hidx⟩).waypointType = 1)
    (hnext : s.currentWaypointIndex + 1 < s.tripData.remainingWaypoints.length) :
    updateVehicleLocation now s =
      { s with
        tripData := { s.tripData with tripStatus := s.currentStatus }
        vehicleLocation :=
          ⟨newPosition s.vehicleLocation.location
            (s.tripData.remainingWaypoints.get ⟨s.currentWaypointIndex, hidx⟩).location,
           computeHeading s.vehicleLocation.location
            (s.tripData.remainingWaypoints.get ⟨s.currentWaypointIndex, hidx⟩).location, now⟩
        currentWaypointIndex := s.currentWaypointIndex + 1
        etaTimestampMillis := now + 10 * 60 * 1000
        remainingDistanceMeters := 2000 } := by
  unfold updateVehicleLocation
  rw [if_neg hterm, dif_pos hidx, if_pos harr, if_neg htype0, if_neg htype1, if_pos hnext]

theorem tick_intermediate_noNext (now : ℤ) (s : SimulatedTrip)
    (hterm : ¬(s.currentStatus = 4 ∨ s.currentStatus = 5))
    (hidx : s.currentWaypointIndex < s.tripData.remainingWaypoints.length)
    (harr : arrived
      (newPosition s.vehicleLocation.location
        (s.tripData.remainingWaypoints.get ⟨s.currentWaypointIndex, hidx⟩).location)
      (s.tripData.remainingWaypoints.get ⟨s.currentWaypointIndex, hidx⟩).location)
    (htype0 : ¬ (s.tripData.remainingWaypoints.get
      ⟨s.currentWaypointIndex, hidx⟩).waypointType = 0)
    (htype1 : ¬ (s.tripData.remainingWaypoints.get
      ⟨s.currentWaypointIndex, hidx⟩).waypointType = 1)
    (hnext : ¬ s.currentWaypointIndex + 1 < s.tripData.remainingWaypoints.length) :
    updateVehicleLocation now s =
      { s with
        tripData := { s.tripData with tripStatus := s.currentStatus }
        vehicleLocation :=
          ⟨newPosition s.vehicleLocation.location
            (s.tripData.remainingWaypoints.get ⟨s.currentWaypointIndex, hidx⟩).location,
           computeHeading s.vehicleLocation.location
            (s.tripData.remainingWaypoints.get ⟨s.currentWaypointIndex, hidx⟩).location, now⟩
        currentWaypointIndex := s.currentWaypointIndex + 1
        etaTimestampMillis := decayedEta now s.etaTimestampMillis
        remainingDistanceMeters := decayedDistance s.remainingDistanceMeters } := by
  unfold updateVehicleLocation
  rw [if_neg hterm, dif_pos hidx, if_pos harr, if_neg htype0, if_neg htype1, if_neg hnext]

/-! ### Structural lemmas about ticks and runs -/

theorem run_nil (s : SimulatedTrip) : run [] s = s := rfl

theorem run_cons (t : ℤ) (ts : List ℤ) (s : SimulatedTrip) :
    run (t :: ts) s = run ts (updateVehicleLocation t s) := rfl

theorem tick_status_cases (now : ℤ) (s : SimulatedTrip) :
    (updateVehicleLocation now s).currentStatus = s.currentStatus ∨
    (updateVehicleLocation now s).currentStatus = 2 ∨
    (updateVehicleLocation now s).currentStatus = 3 ∨
    (updateVehicleLocation now s).currentStatus = 4 := by
  simp only [updateVehicleLocation]
  split_ifs <;> simp

theorem tick_waypoints_const (now : ℤ) (s : SimulatedTrip) :
    (updateVehicleLocation now s).tripData.remainingWaypoints =
      s.tripData.remainingWaypoints := by
  simp only [updateVehicleLocation]
  split_ifs <;> rfl

theorem tick_frozen_of_noWaypoint (now : ℤ) (s : SimulatedTrip)
    (h : s.tripData.remainingWaypoints.length ≤ s.currentWaypointIndex) :
    (updateVehicleLocation now s).currentStatus = s.currentStatus ∧
    (updateVehicleLocation now s).currentWaypointIndex = s.currentWaypointIndex ∧
    (updateVehicleLocation now s).vehicleLocation = s.vehicleLocation := by
  by_cases hterm : s.currentStatus = 4 ∨ s.currentStatus = 5
  · rw [tick_terminal now s hterm]
    exact ⟨rfl, rfl, rfl⟩
  · rw [tick_noWaypoint now s hterm (not_lt.mpr h)]
    exact ⟨rfl, rfl, rfl⟩

theorem run_frozen_of_noWaypoint (ts : List ℤ) (s : SimulatedTrip)
    (h : s.tripData.remainingWaypoints.length ≤ s.currentWaypointIndex) :
    (run ts s).currentStatus = s.currentStatus ∧
    (run ts s).currentWaypointIndex = s.currentWaypointIndex ∧
    (run ts s).vehicleLocation = s.vehicleLocation := by
  induction ts generalizing s with
  | nil => exact ⟨rfl, rfl, rfl⟩
  | cons t ts ih =>
    have hstep := tick_frozen_of_noWaypoint t s h
    have hlen : (updateVehicleLocation t s).tripData.remainingWaypoints.length ≤
        (updateVehicleLocation t s).currentWaypointIndex := by
      rw [tick_waypoints_const, hstep.2.1]
      exact h
    have hrest := ih (updateVehicleLocation t s) hlen
    rw [run_cons]
    exact ⟨hrest.1.trans hstep.1, hrest.2.1.trans hstep.2.1, hrest.2.2.trans hstep.2.2⟩

/-- C7: `advance()` on a Session whose status is COMPLETED (4) or CANCELED (5)
leaves every field of the session unchanged, for any number of repeated calls:
a run of arbitrarily many ticks at arbitrary instants returns the state
unchanged. -/
theorem C7_terminal_advance_noop (s : SimulatedTrip) (ts : List ℤ)
    (hterm : s.currentStatus = 4 ∨ s.currentStatus = 5) :
    run ts s = s := by
  induction ts with
  | nil => rfl
  | cons t ts ih =>
    rw [run_cons, tick_terminal t s hterm, ih]

/-- Concrete instance for C7: a COMPLETED session is unchanged by two ticks. -/
def c7State : SimulatedTrip :=
  { tripData :=
      { tripName := some ("trip"), tripStatus := 4,
        remainingWaypoints := [{ location := ⟨37.42, -122.08⟩, waypointType := 1,
                                 tripId := some ("trip"), title := "Dropoff" }],
        vehicleTypeId := "default", bookingId := some ("trip") }
    vehicleLocation := ⟨⟨37.42, -122.08⟩, 0, 0⟩
    currentStatus := 4
    currentWaypointIndex := 0
    etaTimestampMillis := 900000
    remainingDistanceMeters := 2500 }

theorem C7_terminal_advance_noop_witness :
    (c7State.currentStatus = 4 ∨ c7State.currentStatus = 5) ∧
    run [0, 2000] c7State = c7State := by
  refine ⟨Or.inl rfl, ?_⟩
  exact C7_terminal_advance_noop c7State [0, 2000] (Or.inl rfl)

/-- C8: for every current position and target waypoint location, the heading
produced by the Motion Model (atan2-style bearing in degrees, with 360 added
when negative) lies in the half-open interval `[0, 360)`. -/
theorem C8_heading_in_range (currentLoc targetLoc : LatLng) :
    0 ≤ computeHeading currentLoc targetLoc ∧ computeHeading currentLoc targetLoc < 360 := by
  simp only [computeHeading, atan2]
  have hpi := Real.pi_pos
  have h1 : Complex.arg ⟨targetLoc.lat - currentLoc.lat, targetLoc.lng - currentLoc.lng⟩ ≤
      Real.pi := Complex.arg_le_pi _
  have h2 : -Real.pi <
      Complex.arg ⟨targetLoc.lat - currentLoc.lat, targetLoc.lng - currentLoc.lng⟩ :=
    Complex.neg_pi_lt_arg _
  set θ := Complex.arg ⟨targetLoc.lat - currentLoc.lat, targetLoc.lng - currentLoc.lng⟩
  have hd1 : θ * 180 / Real.pi ≤ 180 := by
    rw [div_le_iff₀ hpi]
    nlinarith
  have hd2 : -180 < θ * 180 / Real.pi := by
    rw [lt_div_iff₀ hpi]
    nlinarith
  split_ifs with hneg
  · constructor <;> linarith
  · constructor <;> linarith

theorem arrived_newPosition_self (p : LatLng) : arrived (newPosition p p) p := by
  rw [newPosition_self]
  exact arrived_self p

/-- Session state whose status is already ENROUTE_TO_DROPOFF (3) while the
current target waypoint is a PICKUP the vehicle is standing on; reachable by
starting a trip with `tripStatus = 3` and a PICKUP waypoint, or as the second
leg of a [PICKUP, PICKUP] trip. -/
def c3State : SimulatedTrip :=
  { tripData :=
      { tripName := some ("trip"), tripStatus := 3,
        remainingWaypoints := [{ location := ⟨0, 0⟩, waypointType := 0,
                                 tripId := some ("trip"), title := "Pickup" }],
        vehicleTypeId := "default", bookingId := some ("trip") }
    vehicleLocation := ⟨⟨0, 0⟩, 0, 0⟩
    currentStatus := 3
    currentWaypointIndex := 0
    etaTimestampMillis := 900000
    remainingDistanceMeters := 5000 }

/-- C3 fails as stated: a tick can move the status backward. From status
ENROUTE_TO_DROPOFF (3), arrival at a PICKUP waypoint with remaining distance
still at least 100 m sets the status back to ARRIVED_AT_PICKUP (2). -/
theorem C3_counterexample :
    c3State.currentStatus = 3 ∧ (updateVehicleLocation 0 c3State).currentStatus = 2 := by
  have hterm : ¬(c3State.currentStatus = 4 ∨ c3State.currentStatus = 5) := by decide
  have hidx : c3State.currentWaypointIndex < c3State.tripData.remainingWaypoints.length := by
    simp [c3State]
  have harr : arrived
      (newPosition c3State.vehicleLocation.location
        (c3State.tripData.remainingWaypoints.get ⟨c3State.currentWaypointIndex, hidx⟩).location)
      (c3State.tripData.remainingWaypoints.get ⟨c3State.currentWaypointIndex, hidx⟩).location :=
    arrived_newPosition_self _
  have htype : (c3State.tripData.remainingWaypoints.get
      ⟨c3State.currentWaypointIndex, hidx⟩).waypointType = 0 := rfl
  have hrem : ¬ decayedDistance c3State.remainingDistanceMeters < 100 := by
    simp only [decayedDistance, c3State]
    norm_num
  rw [tick_pickup_far 0 c3State hterm hidx harr htype hrem]
  exact ⟨rfl, rfl⟩

/-- C3 amended: across any run of ticks the engine either leaves the status
unchanged or sets it to ARRIVED_AT_PICKUP (2), ENROUTE_TO_DROPOFF (3) or
COMPLETED (4); in particular it never produces CANCELED (5) itself.
Forward-only ordering does not hold: arrival at a PICKUP waypoint sets the
status to 2 even from status 3 (see the counterexample). -/
theorem C3_amended (s : SimulatedTrip) (ts : List ℤ) :
    ((run ts s).currentStatus = s.currentStatus ∨ (run ts s).currentStatus = 2 ∨
     (run ts s).currentStatus = 3 ∨ (run ts s).currentStatus = 4) ∧
    ((run ts s).currentStatus = 5 → s.currentStatus = 5) := by
  induction ts generalizing s with
  | nil => exact ⟨Or.inl rfl, fun h => h⟩
  | cons t ts ih =>
    have hstep := tick_status_cases t s
    have hrun := ih (updateVehicleLocation t s)
    rw [run_cons]
    constructor
    · rcases hrun.1 with h | h | h | h
      · rw [h]
        exact hstep
      · exact Or.inr (Or.inl h)
      · exact Or.inr (Or.inr (Or.inl h))
      · exact Or.inr (Or.inr (Or.inr h))
    · intro h5
      have h5b := hrun.2 h5
      rcases hstep with h | h | h | h <;> omega

/-- Session on the pickup leg with remaining distance down to 100 m, the
vehicle standing on the PICKUP waypoint and a further waypoint remaining;
this is the state reached after 48 arrival ticks of a [PICKUP, DROPOFF] trip
whose vehicle starts at the pickup. -/
def c1State : SimulatedTrip :=
  { tripData :=
      { tripName := some ("trip"), tripStatus := 2,
        remainingWaypoints := [{ location := ⟨0, 0⟩, waypointType := 0,
                                 tripId := some ("trip"), title := "Pickup" },
                               { location := ⟨1, 1⟩, waypointType := 1,
                                 tripId := some ("trip"), title := "Dropoff" }],
        vehicleTypeId := "default", bookingId := some ("trip") }
    vehicleLocation := ⟨⟨0, 0⟩, 0, 0⟩
    currentStatus := 2
    currentWaypointIndex := 0
    etaTimestampMillis := 900000
    remainingDistanceMeters := 100 }

/-- C1 fails as stated: on the tick where the pickup leg is reset, the
remaining distance jumps from below 100 m to the reset value 3000 m, so it is
not monotonically non-increasing on non-terminal ticks. -/
theorem C1_counterexample :
    ¬(c1State.currentStatus = 4 ∨ c1State.currentStatus = 5) ∧
    ¬((updateVehicleLocation 0 c1State).remainingDistanceMeters ≤
        c1State.remainingDistanceMeters) := by
  have hterm : ¬(c1State.currentStatus = 4 ∨ c1State.currentStatus = 5) := by decide
  have hidx : c1State.currentWaypointIndex < c1State.tripData.remainingWaypoints.length := by
    simp [c1State]
  have harr : arrived
      (newPosition c1State.vehicleLocation.location
        (c1State.tripData.remainingWaypoints.get ⟨c1State.currentWaypointIndex, hidx⟩).location)
      (c1State.tripData.remainingWaypoints.get ⟨c1State.currentWaypointIndex, hidx⟩).location :=
    arrived_newPosition_self _
  have htype : (c1State.tripData.remainingWaypoints.get
      ⟨c1State.currentWaypointIndex, hidx⟩).waypointType = 0 := rfl
  have hrem : decayedDistance c1State.remainingDistanceMeters < 100 := by
    simp only [decayedDistance, c1State]
    norm_num
  have hnext : c1State.currentWaypointIndex + 1 <
      c1State.tripData.remainingWaypoints.length := by
    simp [c1State]
  refine ⟨hterm, ?_⟩
  rw [tick_pickup_reset 0 c1State hterm hidx harr htype hrem hnext]
  norm_num [c1State]

/-- C1 amended: on every non-terminal tick of a session whose remaining
distance is nonnegative, the remaining distance stays nonnegative, and it is
non-increasing except on leg-reset arrival ticks, where it is set to the reset
constants 3000 m (pickup) or 2000 m (intermediate). -/
theorem C1_amended (now : ℤ) (s : SimulatedTrip)
    (hterm : ¬(s.currentStatus = 4 ∨ s.currentStatus = 5))
    (hpos : 0 ≤ s.remainingDistanceMeters) :
    0 ≤ (updateVehicleLocation now s).remainingDistanceMeters ∧
    ((updateVehicleLocation now s).remainingDistanceMeters ≤ s.remainingDistanceMeters ∨
     (updateVehicleLocation now s).remainingDistanceMeters = 3000 ∨
     (updateVehicleLocation now s).remainingDistanceMeters = 2000) := by
  simp only [updateVehicleLocation]
  rw [if_neg hterm]
  split_ifs <;> dsimp only <;>
    refine ⟨?_, ?_⟩ <;>
      first
        | exact decayedDistance_nonneg _
        | exact Or.inl (decayedDistance_le _ hpos)
        | exact Or.inl hpos
        | norm_num

theorem C1_amended_witness :
    ¬(c1State.currentStatus = 4 ∨ c1State.currentStatus = 5) ∧
    0 ≤ c1State.remainingDistanceMeters ∧
    (0 ≤ (updateVehicleLocation 0 c1State).remainingDistanceMeters ∧
     ((updateVehicleLocation 0 c1State).remainingDistanceMeters ≤
        c1State.remainingDistanceMeters ∨
      (updateVehicleLocation 0 c1State).remainingDistanceMeters = 3000 ∨
      (updateVehicleLocation 0 c1State).remainingDistanceMeters = 2000)) := by
  refine ⟨by decide, by norm_num [c1State], ?_⟩
  exact C1_amended 0 c1State (by decide) (by norm_num [c1State])

/-- Session whose ETA-remaining time has decayed to 55 s at the next tick
instant (the decay fixed point 57 s minus a 2 s tick period), with the vehicle
still far from its target so that no arrival reset fires. -/
def c2State : SimulatedTrip :=
  { tripData :=
      { tripName := some ("trip"), tripStatus := 1,
        remainingWaypoints := [{ location := ⟨0, 0⟩, waypointType := 0,
                                 tripId := some ("trip"), title := "Pickup" },
                               { location := ⟨1, 1⟩, waypointType := 1,
                                 tripId := some ("trip"), title := "Dropoff" }],
        vehicleTypeId := "default", bookingId := some ("trip") }
    vehicleLocation := ⟨⟨10, 10⟩, 0, 0⟩
    currentStatus := 1
    currentWaypointIndex := 0
    etaTimestampMillis := 57000
    remainingDistanceMeters := 2000 }

/-- C2 fails as stated: at instant 2000 the ETA-remaining time before the tick
is 55 000 ms; the tick clamps it up to 60 000 ms and then takes 95%, leaving
57 000 ms — which is below the claimed 60 000 ms floor (and above the
before-tick value, so the claimed monotonicity fails too). -/
theorem C2_counterexample :
    ¬(c2State.currentStatus = 4 ∨ c2State.currentStatus = 5) ∧
    ¬(60000 ≤ (updateVehicleLocation 2000 c2State).etaTimestampMillis - 2000 ∧
      (updateVehicleLocation 2000 c2State).etaTimestampMillis - 2000 ≤
        c2State.etaTimestampMillis - 2000) := by
  have hterm : ¬(c2State.currentStatus = 4 ∨ c2State.currentStatus = 5) := by decide
  have hidx : c2State.currentWaypointIndex < c2State.tripData.remainingWaypoints.length := by
    simp [c2State]
  have harr : ¬ arrived
      (newPosition c2State.vehicleLocation.location
        (c2State.tripData.remainingWaypoints.get ⟨c2State.currentWaypointIndex, hidx⟩).location)
      (c2State.tripData.remainingWaypoints.get ⟨c2State.currentWaypointIndex, hidx⟩).location := by
    rw [arrived_iff]
    show ¬((10 + (0 - 10) * 0.05 - 0) ^ 2 + (10 + (0 - 10) * 0.05 - 0) ^ 2 <
      (0.0002 : ℝ) ^ 2)
    norm_num
  refine ⟨hterm, ?_⟩
  rw [tick_noArrival 2000 c2State hterm hidx harr]
  have heta : decayedEta 2000 c2State.etaTimestampMillis = 59000 := by
    simp only [decayedEta, c2State]
    norm_num
  show ¬(60000 ≤ decayedEta 2000 c2State.etaTimestampMillis - 2000 ∧ _)
  rw [heta]
  norm_num

/-- C2 amended: on every non-terminal tick, the ETA-remaining time after the
tick (measured at the tick instant) is at least 57 000 ms — the 60 s clamp is
applied before the 5% shrink, so the effective floor is 57 s, not 60 s — and
it is at most `max 60000 (before-tick remaining)` except when an arrival
resets the ETA to +20 min or +10 min. -/
theorem C2_amended (now : ℤ) (s : SimulatedTrip)
    (hterm : ¬(s.currentStatus = 4 ∨ s.currentStatus = 5)) :
    57000 ≤ (updateVehicleLocation now s).etaTimestampMillis - now ∧
    ((updateVehicleLocation now s).etaTimestampMillis - now ≤
       max 60000 (s.etaTimestampMillis - now) ∨
     (updateVehicleLocation now s).etaTimestampMillis - now = 20 * 60 * 1000 ∨
     (updateVehicleLocation now s).etaTimestampMillis - now = 10 * 60 * 1000) := by
  simp only [updateVehicleLocation]
  rw [if_neg hterm]
  split_ifs <;> dsimp only <;>
    refine ⟨?_, ?_⟩ <;>
      first
        | exact decayedEta_remaining_lower now s.etaTimestampMillis
        | exact Or.inl (decayedEta_remaining_upper now s.etaTimestampMillis)
        | omega

theorem C2_amended_witness :
    ¬(c2State.currentStatus = 4 ∨ c2State.currentStatus = 5) ∧
    (57000 ≤ (updateVehicleLocation 2000 c2State).etaTimestampMillis - 2000 ∧
     ((updateVehicleLocation 2000 c2State).etaTimestampMillis - 2000 ≤
        max 60000 (c2State.etaTimestampMillis - 2000) ∨
      (updateVehicleLocation 2000 c2State).etaTimestampMillis - 2000 = 20 * 60 * 1000 ∨
      (updateVehicleLocation 2000 c2State).etaTimestampMillis - 2000 = 10 * 60 * 1000)) := by
  refine ⟨by decide, ?_⟩
  exact C2_amended 2000 c2State (by decide)

/-- Trip whose only waypoint is a PICKUP the vehicle is standing on, with the
remaining distance already below 100 m before the decay. -/
def c4State : SimulatedTrip :=
  { tripData :=
      { tripName := some ("trip"), tripStatus := 1,
        remainingWaypoints := [{ location := ⟨0, 0⟩, waypointType := 0,
                                 tripId := some ("trip"), title := "Pickup" }],
        vehicleTypeId := "default", bookingId := some ("trip") }
    vehicleLocation := ⟨⟨0, 0⟩, 0, 0⟩
    currentStatus := 1
    currentWaypointIndex := 0
    etaTimestampMillis := 900000
    remainingDistanceMeters := 90 }

/-- C4 fails as stated: when the PICKUP waypoint is the last waypoint, the
arrival tick still moves the status to 3 and advances the cursor, but the
distance/ETA reset is skipped (the incremented cursor no longer points at a
waypoint), so the remaining distance does not become 3000 m. -/
theorem C4_counterexample :
    ¬(c4State.currentStatus = 4 ∨ c4State.currentStatus = 5) ∧
    decayedDistance c4State.remainingDistanceMeters < 100 ∧
    (updateVehicleLocation 0 c4State).currentStatus = 3 ∧
    ¬((updateVehicleLocation 0 c4State).remainingDistanceMeters = 3000) := by
  have hterm : ¬(c4State.currentStatus = 4 ∨ c4State.currentStatus = 5) := by decide
  have hidx : c4State.currentWaypointIndex < c4State.tripData.remainingWaypoints.length := by
    simp [c4State]
  have harr : arrived
      (newPosition c4State.vehicleLocation.location
        (c4State.tripData.remainingWaypoints.get ⟨c4State.currentWaypointIndex, hidx⟩).location)
      (c4State.tripData.remainingWaypoints.get ⟨c4State.currentWaypointIndex, hidx⟩).location :=
    arrived_newPosition_self _
  have htype : (c4State.tripData.remainingWaypoints.get
      ⟨c4State.currentWaypointIndex, hidx⟩).waypointType = 0 := rfl
  have hrem : decayedDistance c4State.remainingDistanceMeters < 100 := by
    simp only [decayedDistance, c4State]
    norm_num
  have hnext : ¬ c4State.currentWaypointIndex + 1 <
      c4State.tripData.remainingWaypoints.length := by
    simp [c4State]
  refine ⟨hterm, hrem, ?_, ?_⟩
  · rw [tick_pickup_noNext 0 c4State hterm hidx harr htype hrem hnext]
  · rw [tick_pickup_noNext 0 c4State hterm hidx harr htype hrem hnext]
    show ¬(decayedDistance c4State.remainingDistanceMeters = 3000)
    simp only [decayedDistance, c4State]
    norm_num

/-- C4 amended: on every non-terminal tick where the Motion Model reports
arrival at a PICKUP waypoint and the decayed remaining distance is below
100 m, the status becomes ENROUTE_TO_DROPOFF (3) and the cursor increases by
1 — including when the PICKUP was the last waypoint — and, provided the
incremented cursor still points at an existing waypoint, the remaining
distance resets to 3000 m and the ETA resets to 20 minutes from now. -/
theorem C4_amended (now : ℤ) (s : SimulatedTrip)
    (hterm : ¬(s.currentStatus = 4 ∨ s.currentStatus = 5))
    (hidx : s.currentWaypointIndex < s.tripData.remainingWaypoints.length)
    (harr : arrived
      (newPosition s.vehicleLocation.location
        (s.tripData.remainingWaypoints.get ⟨s.currentWaypointIndex, hidx⟩).location)
      (s.tripData.remainingWaypoints.get ⟨s.currentWaypointIndex, hidx⟩).location)
    (htype : (s.tripData.remainingWaypoints.get ⟨s.currentWaypointIndex, hidx⟩).waypointType = 0)
    (hrem : decayedDistance s.remainingDistanceMeters < 100) :
    (updateVehicleLocation now s).currentStatus = 3 ∧
    (updateVehicleLocation now s).currentWaypointIndex = s.currentWaypointIndex + 1 ∧
    (s.currentWaypointIndex + 1 < s.tripData.remainingWaypoints.length →
      (updateVehicleLocation now s).remainingDistanceMeters = 3000 ∧
      (updateVehicleLocation now s).etaTimestampMillis = now + 20 * 60 * 1000) := by
  by_cases hnext : s.currentWaypointIndex + 1 < s.tripData.remainingWaypoints.length
  · rw [tick_pickup_reset now s hterm hidx harr htype hrem hnext]
    exact ⟨rfl, rfl, fun _ => ⟨rfl, rfl⟩⟩
  · rw [tick_pickup_noNext now s hterm hidx harr htype hrem hnext]
    exact ⟨rfl, rfl, fun h => absurd h hnext⟩

/-- Trip on the pickup leg of a [PICKUP, DROPOFF] trip with the vehicle on the
pickup and the remaining distance below 100 m. -/
def c4wState : SimulatedTrip :=
  { tripData :=
      { tripName := some ("trip"), tripStatus := 1,
        remainingWaypoints := [{ location := ⟨0, 0⟩, waypointType := 0,
                                 tripId := some ("trip"), title := "Pickup" },
                               { location := ⟨1, 1⟩, waypointType := 1,
                                 tripId := some ("trip"), title := "Dropoff" }],
        vehicleTypeId := "default", bookingId := some ("trip") }
    vehicleLocation := ⟨⟨0, 0⟩, 0, 0⟩
    currentStatus := 1
    currentWaypointIndex := 0
    etaTimestampMillis := 900000
    remainingDistanceMeters := 90 }

theorem C4_amended_witness :
    ¬(c4wState.currentStatus = 4 ∨ c4wState.currentStatus = 5) ∧
    decayedDistance c4wState.remainingDistanceMeters < 100 ∧
    c4wState.currentWaypointIndex + 1 < c4wState.tripData.remainingWaypoints.length ∧
    ((updateVehicleLocation 0 c4wState).currentStatus = 3 ∧
     (updateVehicleLocation 0 c4wState).currentWaypointIndex =
       c4wState.currentWaypointIndex + 1 ∧
     (updateVehicleLocation 0 c4wState).remainingDistanceMeters = 3000 ∧
     (updateVehicleLocation 0 c4wState).etaTimestampMillis = 0 + 20 * 60 * 1000) := by
  have hidx : c4wState.currentWaypointIndex < c4wState.tripData.remainingWaypoints.length := by
    simp [c4wState]
  have hnext : c4wState.currentWaypointIndex + 1 <
      c4wState.tripData.remainingWaypoints.length := by
    simp [c4wState]
  have h := C4_amended 0 c4wState (by decide) hidx (arrived_newPosition_self _) rfl
    (by simp only [decayedDistance, c4wState]; norm_num)
  exact ⟨by decide, by simp only [decayedDistance, c4wState]; norm_num, hnext,
    h.1, h.2.1, (h.2.2 hnext).1, (h.2.2 hnext).2⟩

/-- Trip whose current target is a DROPOFF waypoint the vehicle is standing
on; the remaining distance is an arbitrary-looking prior value. -/
def c6State : SimulatedTrip :=
  { tripData :=
      { tripName := some ("trip"), tripStatus := 3,
        remainingWaypoints := [{ location := ⟨0, 0⟩, waypointType := 1,
                                 tripId := some ("trip"), title := "Dropoff" }],
        vehicleTypeId := "default", bookingId := some ("trip") }
    vehicleLocation := ⟨⟨0, 0⟩, 0, 0⟩
    currentStatus := 3
    currentWaypointIndex := 0
    etaTimestampMillis := 900000
    remainingDistanceMeters := 2500 }

/-- C6: on every non-terminal tick where the Motion Model reports arrival at a
DROPOFF waypoint — whatever the prior remaining distance and the waypoint
position in the list — the status becomes COMPLETED (4), the remaining
distance becomes exactly 0 and the waypoint cursor is unchanged. -/
theorem C6_dropoff_completes (now : ℤ) (s : SimulatedTrip)
    (hterm : ¬(s.currentStatus = 4 ∨ s.currentStatus = 5))
    (hidx : s.currentWaypointIndex < s.tripData.remainingWaypoints.length)
    (harr : arrived
      (newPosition s.vehicleLocation.location
        (s.tripData.remainingWaypoints.get ⟨s.currentWaypointIndex, hidx⟩).location)
      (s.tripData.remainingWaypoints.get ⟨s.currentWaypointIndex, hidx⟩).location)
    (htype : (s.tripData.remainingWaypoints.get
      ⟨s.currentWaypointIndex, hidx⟩).waypointType = 1) :
    (updateVehicleLocation now s).currentStatus = 4 ∧
    (updateVehicleLocation now s).remainingDistanceMeters = 0 ∧
    (updateVehicleLocation now s).currentWaypointIndex = s.currentWaypointIndex := by
  rw [tick_dropoff now s hterm hidx harr htype]
  exact ⟨rfl, rfl, rfl⟩

theorem C6_dropoff_completes_witness :
    ¬(c6State.currentStatus = 4 ∨ c6State.currentStatus = 5) ∧
    ((updateVehicleLocation 0 c6State).currentStatus = 4 ∧
     (updateVehicleLocation 0 c6State).remainingDistanceMeters = 0 ∧
     (updateVehicleLocation 0 c6State).currentWaypointIndex =
       c6State.currentWaypointIndex) := by
  have hidx : c6State.currentWaypointIndex < c6State.tripData.remainingWaypoints.length := by
    simp [c6State]
  refine ⟨by decide, ?_⟩
  exact C6_dropoff_completes 0 c6State (by decide) hidx (arrived_newPosition_self _) rfl

/-- C10: the leg-reset values on arrival are applied only when the incremented
cursor still points at an existing waypoint. If the arrival-advanced cursor
reaches the end of the waypoint list (last waypoint a PICKUP or an
INTERMEDIATE), the old remaining distance and ETA are kept (they only undergo
the decay of this tick); and once the cursor is past the end, every tick merely
decays distance and ETA without invoking the Motion Model (vehicle location
untouched), and no run of ticks ever makes the status COMPLETED (4). -/
theorem C10_reset_only_within_list (now : ℤ) (s : SimulatedTrip)
    (hterm : ¬(s.currentStatus = 4 ∨ s.currentStatus = 5)) :
    (∀ (hidx : s.currentWaypointIndex < s.tripData.remainingWaypoints.length),
      (s.tripData.remainingWaypoints.get
        ⟨s.currentWaypointIndex, hidx⟩).waypointType = 0 →
      arrived
        (newPosition s.vehicleLocation.location
          (s.tripData.remainingWaypoints.get ⟨s.currentWaypointIndex, hidx⟩).location)
        (s.tripData.remainingWaypoints.get ⟨s.currentWaypointIndex, hidx⟩).location →
      decayedDistance s.remainingDistanceMeters < 100 →
      ¬ s.currentWaypointIndex + 1 < s.tripData.remainingWaypoints.length →
      (updateVehicleLocation now s).remainingDistanceMeters =
        decayedDistance s.remainingDistanceMeters ∧
      (updateVehicleLocation now s).etaTimestampMillis =
        decayedEta now s.etaTimestampMillis ∧
      (updateVehicleLocation now s).currentStatus = 3 ∧
      (updateVehicleLocation now s).currentWaypointIndex = s.currentWaypointIndex + 1) ∧
    (∀ (hidx : s.currentWaypointIndex < s.tripData.remainingWaypoints.length),
      ¬ (s.tripData.remainingWaypoints.get
        ⟨s.currentWaypointIndex, hidx⟩).waypointType = 0 →
      ¬ (s.tripData.remainingWaypoints.get
        ⟨s.currentWaypointIndex, hidx⟩).waypointType = 1 →
      arrived
        (newPosition s.vehicleLocation.location
          (s.tripData.remainingWaypoints.get ⟨s.currentWaypointIndex, hidx⟩).location)
        (s.tripData.remainingWaypoints.get ⟨s.currentWaypointIndex, hidx⟩).location →
      ¬ s.currentWaypointIndex + 1 < s.tripData.remainingWaypoints.length →
      (updateVehicleLocation now s).remainingDistanceMeters =
        decayedDistance s.remainingDistanceMeters ∧
      (updateVehicleLocation now s).etaTimestampMillis =
        decayedEta now s.etaTimestampMillis ∧
      (updateVehicleLocation now s).currentStatus = s.currentStatus ∧
      (updateVehicleLocation now s).currentWaypointIndex = s.currentWaypointIndex + 1) ∧
    (s.tripData.remainingWaypoints.length ≤ s.currentWaypointIndex →
      updateVehicleLocation now s =
        { s with
          tripData := { s.tripData with tripStatus := s.currentStatus }
          etaTimestampMillis := decayedEta now s.etaTimestampMillis
          remainingDistanceMeters := decayedDistance s.remainingDistanceMeters } ∧
      ∀ ts : List ℤ, (run ts s).currentStatus ≠ 4 ∧
        (run ts s).vehicleLocation = s.vehicleLocation) := by
  refine ⟨?_, ?_, ?_⟩
  · intro hidx htype harr hrem hnext
    rw [tick_pickup_noNext now s hterm hidx harr htype hrem hnext]
    exact ⟨rfl, rfl, rfl, rfl⟩
  · intro hidx htype0 htype1 harr hnext
    rw [tick_intermediate_noNext now s hterm hidx harr htype0 htype1 hnext]
    exact ⟨rfl, rfl, rfl, rfl⟩
  · intro hpast
    refine ⟨tick_noWaypoint now s hterm (not_lt.mpr hpast), ?_⟩
    intro ts
    have hfr := run_frozen_of_noWaypoint ts s hpast
    refine ⟨?_, hfr.2.2⟩
    rw [hfr.1]
    intro h4
    exact hterm (Or.inl h4)

/-- Trip whose only waypoint is a PICKUP the vehicle is standing on, with
remaining distance below 100 m: the arrival tick advances the cursor past the
end of the list. -/
def c10State : SimulatedTrip :=
  { tripData :=
      { tripName := some ("trip"), tripStatus := 1,
        remainingWaypoints := [{ location := ⟨0, 0⟩, waypointType := 0,
                                 tripId := some ("trip"), title := "Pickup" }],
        vehicleTypeId := "default", bookingId := some ("trip") }
    vehicleLocation := ⟨⟨0, 0⟩, 0, 0⟩
    currentStatus := 1
    currentWaypointIndex := 0
    etaTimestampMillis := 900000
    remainingDistanceMeters := 90 }

theorem C10_reset_only_within_list_witness :
    ¬(c10State.currentStatus = 4 ∨ c10State.currentStatus = 5) ∧
    decayedDistance c10State.remainingDistanceMeters < 100 ∧
    ¬ c10State.currentWaypointIndex + 1 < c10State.tripData.remainingWaypoints.length ∧
    ((updateVehicleLocation 0 c10State).remainingDistanceMeters =
       decayedDistance c10State.remainingDistanceMeters ∧
     (updateVehicleLocation 0 c10State).etaTimestampMillis =
       decayedEta 0 c10State.etaTimestampMillis ∧
     (updateVehicleLocation 0 c10State).currentStatus = 3 ∧
     (updateVehicleLocation 0 c10State).currentWaypointIndex =
       c10State.currentWaypointIndex + 1) := by
  have hidx : c10State.currentWaypointIndex < c10State.tripData.remainingWaypoints.length := by
    simp [c10State]
  refine ⟨by decide, by simp only [decayedDistance, c10State]; norm_num,
    by simp [c10State], ?_⟩
  exact (C10_reset_only_within_list 0 c10State (by decide)).1 hidx rfl
    (arrived_newPosition_self _) (by simp only [decayedDistance, c10State]; norm_num)
    (by simp [c10State])

/-! ### The control surface: `startJourneySharing` (lines 264-335)

The React Native `ReadableMap` payload is modelled as a record of `Option`
fields (`hasKey`/missing key). Reading a required key from a map that lacks it
throws, and the `try` block of `startJourneySharing` turns every thrown
exception into a rejection with code `START_ERROR`. -/

/-- The `promise.reject` codes of the module (`SESSION_ACTIVE`, `NO_SESSION`,
`START_ERROR`), together with the `INVALID_TRIP` kind that the specification
lists in its error-handling design. -/
inductive ErrorCode where
  | SESSION_ACTIVE
  | NO_SESSION
  | START_ERROR
  | INVALID_TRIP
  deriving DecidableEq

/-- The fields of the module that the start operation touches (lines 56-60). -/
structure ModuleState where
  isSessionActive : Bool
  simulatedTrip : Option SimulatedTrip
  tripId : Option String

structure LocationMap where
  lat : Option ℝ
  lng : Option ℝ

structure WaypointMap where
  location : Option LocationMap
  waypointType : Option ℤ
  tripId : Option String
  title : Option String

structure TripDataMap where
  tripName : Option String
  tripStatus : Option ℤ
  remainingWaypoints : Option (List WaypointMap)
  vehicleTypeId : Option String
  bookingId : Option String

/-- Reading a key whose absence ends in a thrown exception: the primitive
getters (`getInt`, `getDouble`) throw `NoSuchKeyException` on a missing key,
and `getMap` returns null, which the immediately following `getDouble`
dereference turns into a `NullPointerException`; either way the surrounding
`try` rejects with `START_ERROR`. (By contrast `getString` on a missing key
returns null without throwing — see `startBody`.) -/
def req {α : Type} : Option α → Except ErrorCode α
  | some a => Except.ok a
  | none => Except.error ErrorCode.START_ERROR

@[simp]
theorem req_none {α : Type} : req (none : Option α) = Except.error ErrorCode.START_ERROR := rfl

@[simp]
theorem req_some {α : Type} (a : α) : req (some a) = Except.ok a := rfl

@[simp]
theorem error_bind {α β : Type} (e : ErrorCode) (f : α → Except ErrorCode β) :
    (Except.error e : Except ErrorCode α) >>= f = Except.error e := rfl

@[simp]
theorem ok_bind {α β : Type} (a : α) (f : α → Except ErrorCode β) :
    (Except.ok a : Except ErrorCode α) >>= f = f a := rfl

/-- Parsing one waypoint map (lines 288-313): a location map with `lat`/`lng`
is required (a missing location map or coordinate throws — see `req`),
waypoint type defaults to 0 (PICKUP), trip id to the parent trip name (which
can be null), title to a type-based default. -/
def parseWaypoint (tripName : Option String) (w : WaypointMap) : Except ErrorCode TripWaypoint := do
  let locationMap ← req w.location
  let lat ← req locationMap.lat
  let lng ← req locationMap.lng
  let waypointType := w.waypointType.getD 0
  let waypointTripId := w.tripId.elim tripName some
  let title := w.title.getD
    (if waypointType = 0 then ("Pickup") else if waypointType = 1 then ("Dropoff") else ("Stop"))
  Except.ok (⟨⟨lat, lng⟩, waypointType, waypointTripId, title⟩ : TripWaypoint)

/-- The `SimulatedTrip` constructor (lines 126-138): seeds the vehicle at the
first waypoint (`remainingWaypoints.get(0)` throws on an empty list), heading
0, remaining distance 2500 m and ETA 15 minutes from now. -/
def mkSimulatedTrip (tripData : TripData) (now : ℤ) : Option SimulatedTrip :=
  match tripData.remainingWaypoints with
  | [] => none
  | firstWaypoint :: _ =>
    some
      { tripData := tripData
        vehicleLocation := ⟨firstWaypoint.location, 0, now⟩
        currentStatus := tripData.tripStatus
        currentWaypointIndex := 0
        etaTimestampMillis := now + 15 * 60 * 1000
        remainingDistanceMeters := 2500 }

/-- The body of the `try` block of `startJourneySharing` (lines 273-330).
`getString("tripName")` does not throw on a missing key: it returns null
(modelled as `none`), so a missing trip name alone does not abort the start —
the trip is simply built with a null name. Only the primitive `getInt` read of
`tripStatus` and the waypoint coordinate reads can throw. -/
def startBody (m : TripDataMap) (now : ℤ) : Except ErrorCode (Option String × SimulatedTrip) := do
  let tripName := m.tripName
  let tripStatus ← req m.tripStatus
  let vehicleTypeId := m.vehicleTypeId.getD ("default")
  let bookingId := m.bookingId.elim tripName some
  let waypointMaps := m.remainingWaypoints.getD []
  let waypoints ← waypointMaps.mapM (parseWaypoint tripName)
  let tripData : TripData :=
    { tripName := tripName, tripStatus := tripStatus, remainingWaypoints := waypoints,
      vehicleTypeId := vehicleTypeId, bookingId := bookingId }
  match mkSimulatedTrip tripData now with
  | none => Except.error ErrorCode.START_ERROR
  | some trip => Except.ok (tripName, trip)

/-- Model of `startJourneySharing` (lines 264-335): rejects with `SESSION_ACTIVE` when a
session is running; otherwise parses the payload, rejecting any thrown
failure with `START_ERROR`. The `tripId` field of the module is overwritten
with the (possibly null) trip name at line 276 before anything can throw, so
it is updated on the failure path too; the session fields are only set on
success. -/
def startJourneySharing (st : ModuleState) (m : TripDataMap) (now : ℤ) :
    ModuleState × Except ErrorCode Bool :=
  if st.isSessionActive then (st, Except.error ErrorCode.SESSION_ACTIVE)
  else
    match startBody m now with
    | Except.error e =>
      ({ st with tripId := m.tripName }, Except.error e)
    | Except.ok (tripName, trip) =>
      ({ isSessionActive := true, simulatedTrip := some trip, tripId := tripName },
       Except.ok true)

/-- A waypoint payload carrying a complete coordinate. -/
def validWaypoint (w : WaypointMap) : Bool :=
  match w.location with
  | some loc => loc.lat.isSome && loc.lng.isSome
  | none => false

theorem parseWaypoint_invalid (tripName : Option String) (w : WaypointMap)
    (h : validWaypoint w = false) :
    parseWaypoint tripName w = Except.error ErrorCode.START_ERROR := by
  unfold validWaypoint at h
  unfold parseWaypoint
  cases hloc : w.location with
  | none => simp
  | some loc =>
    rw [hloc] at h
    have h2 : loc.lat.isSome = true → loc.lng = none := by simpa using h
    cases hlat : loc.lat with
    | none => simp [hlat]
    | some a =>
      have hlng : loc.lng = none := h2 (by rw [hlat]; rfl)
      simp [hlat, hlng]

theorem startBody_error (m : TripDataMap) (now : ℤ)
    (hbad : m.tripStatus = none ∨
      ∀ w ∈ m.remainingWaypoints.getD [], validWaypoint w = false) :
    startBody m now = Except.error ErrorCode.START_ERROR := by
  rcases hbad with hs | hw
  · simp [startBody, hs]
  · cases hstatus : m.tripStatus with
    | none => simp [startBody, hstatus]
    | some tripStatus =>
      cases hlist : m.remainingWaypoints.getD [] with
      | nil => simp [startBody, hstatus, hlist, mkSimulatedTrip, List.mapM.loop]
      | cons w ws =>
        have hinv : validWaypoint w = false := hw w (by rw [hlist]; exact List.mem_cons_self w ws)
        simp [startBody, hstatus, hlist, List.mapM.loop,
          parseWaypoint_invalid m.tripName w hinv]

/-- A waypoint payload with a complete coordinate at the origin. -/
def c5ValidWaypoint : WaypointMap :=
  { location := some { lat := some 0, lng := some 0 }, waypointType := some 0,
    tripId := none, title := none }

/-- Payload missing only the trip name, with a valid status and one valid
waypoint. -/
def c5NoNamePayload : TripDataMap :=
  { tripName := none, tripStatus := some 0, remainingWaypoints := some [c5ValidWaypoint],
    vehicleTypeId := none, bookingId := none }

/-- Payload missing the required `tripStatus`, with one valid waypoint. -/
def c5NoStatusPayload : TripDataMap :=
  { tripName := some ("trip"), tripStatus := none, remainingWaypoints := some [c5ValidWaypoint],
    vehicleTypeId := none, bookingId := none }

/-- Idle module (no session active). -/
def c5Module : ModuleState :=
  { isSessionActive := false, simulatedTrip := none, tripId := none }

/-- C5 fails as stated, in two ways. A payload missing only the trip name does
not fail at all: `getString` returns null for the absent key, so the session
starts (with a null trip name). And a payload that does fail (missing status)
is rejected with error kind `START_ERROR`, not the claimed `INVALID_TRIP`
(the implementation never emits `INVALID_TRIP`). -/
theorem C5_counterexample :
    (startJourneySharing c5Module c5NoNamePayload 0).2 = Except.ok true ∧
    (startJourneySharing c5Module c5NoNamePayload 0).1.isSessionActive = true ∧
    (startJourneySharing c5Module c5NoStatusPayload 0).2 = Except.error ErrorCode.START_ERROR ∧
    ¬((startJourneySharing c5Module c5NoStatusPayload 0).2 =
        Except.error ErrorCode.INVALID_TRIP) := by
  refine ⟨rfl, rfl, rfl, ?_⟩
  intro h
  rw [show (startJourneySharing c5Module c5NoStatusPayload 0).2 =
    Except.error ErrorCode.START_ERROR from rfl] at h
  simp at h

/-- C5 amended: starting while a session is active fails with `SESSION_ACTIVE`
and leaves the module state (hence the running session) untouched; starting
with a missing trip status, or with no waypoint carrying a valid coordinate,
fails with error kind `START_ERROR` (not `INVALID_TRIP`) — a missing trip
name alone, by contrast, does not prevent the start (see the counterexample) —
and in the failure cases no session is created. -/
theorem C5_amended (st : ModuleState) (m : TripDataMap) (now : ℤ) :
    (st.isSessionActive = true →
      startJourneySharing st m now = (st, Except.error ErrorCode.SESSION_ACTIVE)) ∧
    (st.isSessionActive = false →
      (m.tripStatus = none ∨
        ∀ w ∈ m.remainingWaypoints.getD [], validWaypoint w = false) →
      (startJourneySharing st m now).2 = Except.error ErrorCode.START_ERROR ∧
      (startJourneySharing st m now).1.isSessionActive = false ∧
      (startJourneySharing st m now).1.simulatedTrip = st.simulatedTrip) := by
  constructor
  · intro hactive
    simp [startJourneySharing, hactive]
  · intro hidle hbad
    have hb := startBody_error m now hbad
    simp [startJourneySharing, hidle, hb]

theorem C5_amended_witness :
    (⟨true, none, none⟩ : ModuleState).isSessionActive = true ∧
    startJourneySharing ⟨true, none, none⟩ c5NoStatusPayload 0 =
      (⟨true, none, none⟩, Except.error ErrorCode.SESSION_ACTIVE) ∧
    c5Module.isSessionActive = false ∧ c5NoStatusPayload.tripStatus = none ∧
    ((startJourneySharing c5Module c5NoStatusPayload 0).2 =
       Except.error ErrorCode.START_ERROR ∧
     (startJourneySharing c5Module c5NoStatusPayload 0).1.isSessionActive = false ∧
     (startJourneySharing c5Module c5NoStatusPayload 0).1.simulatedTrip =
       c5Module.simulatedTrip) := by
  refine ⟨rfl, (C5_amended ⟨true, none, none⟩ c5NoStatusPayload 0).1 rfl, rfl, rfl, ?_⟩
  exact (C5_amended c5Module c5NoStatusPayload 0).2 rfl (Or.inl rfl)

end JourneySharing
